import Mathlib

/-!
Verification model of the CloudVoice agent backend
(src/backend/bridge.py, src/backend/server.py, src/backend/rag.py).

The Orchestrator (`chat` in bridge.py) owns a conversation transcript and,
per turn, consults the Completion Provider, applies the approval gate,
dispatches to the Tool Host or Knowledge Store, and folds results back.
External collaborators (Completion Provider, Tool Host subprocess,
Knowledge Store) are modelled as black-box inputs of a `Turn`, per the spec.
-/

namespace CloudVoice

/-- Request body of `POST /chat` (`class Query` in bridge.py):
`prompt: str`, `approved: bool = False`. -/
structure Query where
  prompt : String
  approved : Bool := false

/-- The tool-call argument mapping obtained from `json.loads(tool_call.function.arguments)`
in bridge.py. Each field models `args.get("...")`, which yields `None` when the key
is absent; hence `Option` everywhere. -/
structure Args where
  instance_type : Option String
  hours : Option Int
  topic : Option String

/-- One entry of `response_message.tool_calls`: a correlation id, the function
name, and the raw JSON arguments. `arguments` is `Except.error e` when
`json.loads` would raise (malformed JSON), carrying the exception text. -/
structure ToolCall where
  id : String
  name : String
  arguments : Except String Args

/-- The message of the Completion Provider (`completion.choices[0].message`): optional
free-text content and a list of requested tool calls. A `None`/empty
`tool_calls` in Python is falsy, modelled here as the empty list. -/
structure ProviderMsg where
  content : Option String
  tool_calls : List ToolCall

/-- A transcript entry. The source appends plain dicts for user / assistant
free-text / tool-result messages, but appends the message object of the provider for the
assistant turn as the typed `ChatCompletionMessage` object itself
(`history.append(response_message)`, bridge.py line 130); `assistantObj` keeps
that distinction because the rollback code in the outer `except` block calls
the dict method `.get` on `history[-1]`. -/
inductive Msg where
  | system (content : String)
  | user (content : String)
  | assistantObj (m : ProviderMsg)
  | assistantDict (content : String)
  | tool (tool_call_id : String) (content : String)

/-- The `data` payload of the carbon-footprint reply:
`{"instance": instance_type, "footprint": tool_result}`. (`inst` models the
JSON key `"instance"`, which is a reserved word in Lean.) -/
structure RData where
  inst : Option String
  footprint : String

/-- The `pending_action` payload of the gated reply:
`{"instance": instance_type, "tool": "deploy_instance"}` (bridge.py line 180).
Note the source includes no hours/duration field. -/
structure PendingAction where
  inst : String
  tool : String

/-- The JSON dict returned by `chat`. Different return sites carry different
key sets; a field is `none` when the key is absent or explicitly `None`. -/
structure Reply where
  response : Option String := none
  tool_used : Option String := none
  data : Option RData := none
  requires_approval : Option Bool := none
  pending_action : Option PendingAction := none

/-- Outcome of one `/chat` turn as seen by the HTTP caller:
a normal JSON reply, the implicit `None` return (the unknown-tool
fall-through returns no dict at all), a raised `HTTPException(500, detail)`,
or an exception escaping the handler uncaught. -/
inductive ChatResult where
  | reply (r : Reply)
  | noneReturn
  | http500 (detail : String)
  | uncaught (exc : String)

/-- The Python substring test `pat in s` (used as `"gpu" in instance_type`,
bridge.py line 172). -/
def strContains (s pat : String) : Bool :=
  decide (pat.data <:+: s.data)

/-- The black-box external collaborators consulted during one turn, per the
component boundary of the spec. `completion1` is the first
`client.chat.completions.create` call; `toolHost` is `run_mcp_tool`, applied
to the extracted `instance_type` and `hours`; `knowledge` is
`search_knowledge_base`, applied to `topic`; `completion2` is the
re-consultation that summarizes a manual lookup. `Except.error e` models the
call raising an exception whose `str` is `e`. `ragImportOk` is whether
`from rag import search_knowledge_base` succeeds. -/
structure Turn where
  completion1 : Except String ProviderMsg
  toolHost : Option String → Int → Except String String
  ragImportOk : Bool
  knowledge : Option String → Except String (Option String)
  completion2 : Except String ProviderMsg

/-- The substitute assistant message of the approval gate (bridge.py line 175):
`f"Deploying {instance_type} requires authorization. Proceed?"`. -/
def approvalMsg (instance_type : String) : String :=
  "Deploying " ++ instance_type ++ " requires authorization. Proceed?"

/-- The fixed Knowledge Store miss message (bridge.py line 209). -/
def notFoundMsg : String := "I couldn\u0027t find that in the manual."

/-- `f"Error executing tool: {str(e)}"` (bridge.py line 152). -/
def toolErrorStr (e : String) : String := "Error executing tool: " ++ e

/-- The value of `tool_result` after the carbon-calculator try/except
(bridge.py lines 148-153): the text from the Tool Host on success, the caught
failure rendered as text otherwise. -/
def toolResultStr (x : Except String String) : String :=
  match x with
  | Except.ok r => r
  | Except.error e => toolErrorStr e

/-- `f"Estimated emissions: {tool_result}"` (bridge.py line 163). -/
def estimatedMsg (tool_result : String) : String :=
  "Estimated emissions: " ++ tool_result

/-- `f"Deployment Initiated for {instance_type}. Monitoring started."`
(bridge.py line 192). -/
def deployInitMsg (instance_type : String) : String :=
  "Deployment Initiated for " ++ instance_type ++ ". Monitoring started."

/-- `f"Found: {knowledge}"` (bridge.py line 209). -/
def foundMsg (knowledge : String) : String := "Found: " ++ knowledge

/-- The `result_text` value of bridge.py line 209: `Found: ...` when a
passage was returned, the fixed not-found message otherwise. -/
def ragResultText (knowledge : Option String) : String :=
  match knowledge with
  | some k => foundMsg k
  | none => notFoundMsg

/-- Models the outer `except Exception` block of `chat` (bridge.py lines
243-249): `if history and history[-1].get("tool_calls"): history.pop()`, then
`raise HTTPException(500, str(e))`. The dicts appended by this handler never
carry a `"tool_calls"` key, so on them `.get` returns `None` and no pop
happens. The assistant message appended at line 130 is not a dict but the
`ChatCompletionMessage` of the provider, a pydantic model with no `.get` method:
reaching this block while it is last raises `AttributeError` from the guard
itself, which escapes the handler uncaught (so the pop never runs and the
`HTTPException` detail is lost). -/
def exceptBlock (hist : List Msg) (detail : String) : List Msg × ChatResult :=
  match hist.getLast? with
  | some (Msg.assistantObj _) => (hist, ChatResult.uncaught "AttributeError")
  | _ => (hist, ChatResult.http500 detail)

/-- The `/chat` handler (`chat` in bridge.py), with the global `history`
passed and returned explicitly. Returns the transcript after the turn and
the HTTP outcome. -/
def chat (hist0 : List Msg) (q : Query) (t : Turn) : List Msg × ChatResult :=
  -- 1. Add the new user message
  let hist := hist0 ++ [Msg.user q.prompt]
  -- 2. Ask GPT
  match t.completion1 with
  | Except.error e => exceptBlock hist e
  | Except.ok response_message =>
    -- 3. Add the GPT response to history
    let hist := hist ++ [Msg.assistantObj response_message]
    -- 4. Check Tool Use
    match response_message.tool_calls with
    | [] =>
      -- If no tool calls, just return the text
      (hist, ChatResult.reply { response := response_message.content, tool_used := none })
    | tool_call :: _ =>
      match tool_call.arguments with
      | Except.error e =>
        -- json.loads raised; handled by the outer except block
        exceptBlock hist e
      | Except.ok args =>
        let instance_type := args.instance_type
        let hours := (args.hours).getD 0
        if tool_call.name = "calculate_carbon_footprint" then
          -- TOOL 1: CARBON CALCULATOR
          let tool_result := toolResultStr (t.toolHost instance_type hours)
          let hist := hist ++ [Msg.tool tool_call.id tool_result]
          (hist, ChatResult.reply
            { response := some (estimatedMsg tool_result),
              tool_used := some "calculate_carbon_footprint",
              data := some { inst := instance_type, footprint := tool_result } })
        else if tool_call.name = "deploy_instance" then
          -- TOOL 2: DEPLOY INSTANCE
          match instance_type with
          | none =>
            -- `"gpu" in None` raises TypeError; handled by the outer except block
            exceptBlock hist "TypeError"
          | some it =>
            if strContains it "gpu" && !q.approved then
              -- PAUSE FOR APPROVAL: pop the tool-call message, substitute text
              let hist := hist.dropLast
              let hist := hist ++ [Msg.assistantDict (approvalMsg it)]
              (hist, ChatResult.reply
                { response := some (approvalMsg it),
                  requires_approval := some true,
                  pending_action := some { inst := it, tool := "deploy_instance" } })
            else
              -- IF APPROVED: mock tool output, no Tool Host contact
              let hist := hist ++ [Msg.tool tool_call.id "DEPLOYMENT_INITIATED"]
              (hist, ChatResult.reply
                { response := some (deployInitMsg it),
                  tool_used := some "deploy_instance",
                  data := none })
        else if tool_call.name = "consult_manual" then
          -- TOOL 3: RAG / MANUAL SEARCH
          if t.ragImportOk then
            match t.knowledge args.topic with
            | Except.error e =>
              -- search_knowledge_base raised (not ImportError); outer except block
              exceptBlock hist e
            | Except.ok knowledge =>
              let result_text := ragResultText knowledge
              let hist := hist ++ [Msg.tool tool_call.id result_text]
              -- Ask GPT to summarize the finding
              match t.completion2 with
              | Except.error e => exceptBlock hist e
              | Except.ok final_msg =>
                let hist := hist ++ [Msg.assistantObj final_msg]
                (hist, ChatResult.reply
                  { response := final_msg.content,
                    tool_used := some "consult_manual" })
          else
            let err_msg := "RAG module not found."
            let hist := hist ++ [Msg.tool tool_call.id err_msg]
            (hist, ChatResult.reply { response := some err_msg })
        else
          -- No branch matches: the Python function falls off the end of the
          -- `if response_message.tool_calls:` block and implicitly returns None
          (hist, ChatResult.noneReturn)

/-- Correlation ids of the Tool Invocation Requests a message carries. -/
def requestIds (m : Msg) : List String :=
  match m with
  | Msg.assistantObj pm => pm.tool_calls.map ToolCall.id
  | _ => []

/-- Whether `m` is the Tool Result answering correlation id `i`. -/
def answersId (i : String) (m : Msg) : Bool :=
  match m with
  | Msg.tool tool_call_id _ => tool_call_id = i
  | _ => false

/-- The §3 transcript invariant: every Tool Invocation Request is answered by
a later Tool Result with the same correlation id (no unanswered request at
rest). -/
def noDangling : List Msg → Bool
  | [] => true
  | m :: rest => ((requestIds m).all fun i => rest.any (answersId i)) && noDangling rest

/-! ### Tool Host (src/backend/server.py) -/

/-- Argument mapping of a Tool Host call (the `arguments` of `handle_call_tool`).
`none` at the outer level models a falsy mapping (`None` or `{}`, both of
which fail the `if not arguments` check in the source). -/
structure ServerArgs where
  instance_type : Option String
  hours : Option Int

/-- Outcome of `handle_call_tool`: a list of text contents, or a raised
`ValueError` with its message. -/
inductive ToolHostResult where
  | ok (texts : List String)
  | valueError (msg : String)

/-- The mock rate table of `handle_call_tool`
(`emissions_map = {"t3.medium": 0.05, "gpu.large": 1.2}`, default `0.1`),
in hundredths of a kg per hour so that the decimal arithmetic is exact:
`5 = 0.05`, `120 = 1.2`, `10 = 0.1`. -/
def emissionsRateHundredths (inst_type : String) : Int :=
  if inst_type = "t3.medium" then 5
  else if inst_type = "gpu.large" then 120
  else 10

/-- Renders a quantity of hundredths as the Python `f"{total:.2f} kg"` renders
the corresponding decimal: integer part, a dot, exactly two fractional
digits, then " kg". -/
def formatHundredthsKg (h : Int) : String :=
  let sign := if h < 0 then "-" else ""
  let a := h.natAbs
  let whole := a / 100
  let frac := a % 100
  let fracStr := (if frac < 10 then "0" else "") ++ toString frac
  sign ++ toString whole ++ "." ++ fracStr ++ " kg"

/-- `handle_call_tool` from src/backend/server.py. The Python binary floating
point on the rate table is modelled as exact decimal arithmetic in
hundredths; for this table and integral hours the product has an exact
two-decimal value, so `f"{total:.2f}"` agrees with the exact rendering. -/
def handle_call_tool (name : String) (arguments : Option ServerArgs) : ToolHostResult :=
  if name = "deploy_instance" then
    ToolHostResult.ok ["DEPLOYMENT_INITIATED"]
  else if name = "calculate_carbon_footprint" then
    match arguments with
    | none => ToolHostResult.valueError "Missing arguments"
    | some args =>
      let inst_type := (args.instance_type).getD "unknown"
      let hours := (args.hours).getD 0
      let rate := emissionsRateHundredths inst_type
      let total := rate * hours
      ToolHostResult.ok [formatHundredthsKg total]
  else
    ToolHostResult.valueError ("Unknown tool: " ++ name)

/-! ### Accessors on the turn outcome -/

/-- The `requires_approval` field a JSON reader sees (absent outside a
normal reply). -/
def resultRequiresApproval : ChatResult → Option Bool
  | ChatResult.reply r => r.requires_approval
  | _ => none

/-- The `tool_used` field a JSON reader sees. -/
def resultToolUsed : ChatResult → Option String
  | ChatResult.reply r => r.tool_used
  | _ => none

/-- The `response` field a JSON reader sees. -/
def resultResponse : ChatResult → Option String
  | ChatResult.reply r => r.response
  | _ => none

/-- The `pending_action` field a JSON reader sees. -/
def resultPendingAction : ChatResult → Option PendingAction
  | ChatResult.reply r => r.pending_action
  | _ => none

/-! ### Concrete fixtures used by witnesses and counterexamples -/

/-- A transcript at rest: just a system message, as at process start. -/
def histW : List Msg := [Msg.system "You are CloudVoice."]

/-- A provider message requesting a single tool call with well-formed
arguments and correlation id "call_1". -/
def mkToolCallMsg (name : String) (ity : Option String) (hrs : Option Int)
    (tp : Option String) : ProviderMsg :=
  { content := none,
    tool_calls := [{ id := "call_1", name := name,
                     arguments := Except.ok { instance_type := ity, hours := hrs, topic := tp } }] }

/-- A turn whose collaborators all behave: the Tool Host returns "12.00 kg",
the Knowledge Store returns a miss, the summarization provider returns a
fixed summary. -/
def mkTurn (c1 : Except String ProviderMsg) : Turn :=
  { completion1 := c1,
    toolHost := fun _ _ => Except.ok "12.00 kg",
    ragImportOk := true,
    knowledge := fun _ => Except.ok none,
    completion2 := Except.ok { content := some "Here is a summary.", tool_calls := [] } }

/-- Turn fixture for C1: gated GPU deploy request. -/
def turnC1 : Turn :=
  mkTurn (Except.ok (mkToolCallMsg "deploy_instance" (some "gpu.large") (some 4) none))

/-- Turn fixture for C2: carbon-footprint request on a GPU instance. -/
def turnC2 : Turn :=
  mkTurn (Except.ok (mkToolCallMsg "calculate_carbon_footprint" (some "gpu.large") (some 10) none))

/-- Turn fixtures for C3: identical gated deploy requests except for the
requested hours (7 vs 8). -/
def turnC3a : Turn :=
  mkTurn (Except.ok (mkToolCallMsg "deploy_instance" (some "gpu.large") (some 7) none))

/-- See `turnC3a`. -/
def turnC3b : Turn :=
  mkTurn (Except.ok (mkToolCallMsg "deploy_instance" (some "gpu.large") (some 8) none))

/-- Turn fixture for C4: carbon-footprint request whose Tool Host call
raises. -/
def turnC4 : Turn :=
  { mkTurn (Except.ok (mkToolCallMsg "calculate_carbon_footprint" (some "t3.medium") (some 3) none)) with
    toolHost := fun _ _ => Except.error "MCP transport closed" }

/-- Turn fixture for C5: the provider requests a tool outside the catalog. -/
def turnC5 : Turn :=
  mkTurn (Except.ok (mkToolCallMsg "get_weather" none none none))

/-- Turn fixtures for C6: manual consultation, Knowledge Store miss, two
different summarization outcomes. -/
def turnC6a : Turn :=
  { mkTurn (Except.ok (mkToolCallMsg "consult_manual" none none (some "quantization"))) with
    completion2 := Except.ok { content := some "Summary A.", tool_calls := [] } }

/-- See `turnC6a`. -/
def turnC6b : Turn :=
  { mkTurn (Except.ok (mkToolCallMsg "consult_manual" none none (some "quantization"))) with
    completion2 := Except.ok { content := some "Summary B.", tool_calls := [] } }

/-- Turn fixture for C8: deploy request whose arguments lack `instance_type`,
so `"gpu" in instance_type` raises TypeError. -/
def turnC8 : Turn :=
  mkTurn (Except.ok (mkToolCallMsg "deploy_instance" none none none))

/-- Turn fixture for C9: free-text provider reply, no tool call. -/
def turnC9 : Turn :=
  mkTurn (Except.ok { content := some "Hello! How can I help?", tool_calls := [] })

/-- Turn fixture for C10: deploy request on a non-GPU instance. -/
def turnC10 : Turn :=
  mkTurn (Except.ok (mkToolCallMsg "deploy_instance" (some "t3.medium") (some 2) none))

/-! ### Transcript-invariant helper lemmas -/

/-- A list of messages none of which carries a Tool Invocation Request
satisfies the no-dangling-request invariant. -/
lemma noDangling_of_no_requests (ms : List Msg) (h : ∀ m ∈ ms, requestIds m = []) :
    noDangling ms = true := by
  induction ms with
  | nil => rfl
  | cons m rest ih =>
    simp only [noDangling, Bool.and_eq_true]
    refine ⟨?_, ih fun m hm => h m (List.mem_cons_of_mem _ hm)⟩
    rw [h m (List.mem_cons_self _ _)]
    rfl

/-- Appending request-free messages preserves the no-dangling-request
invariant. -/
lemma noDangling_append (hist ms : List Msg) (h1 : noDangling hist = true)
    (h2 : ∀ m ∈ ms, requestIds m = []) : noDangling (hist ++ ms) = true := by
  induction hist with
  | nil => simpa using noDangling_of_no_requests ms h2
  | cons m rest ih =>
    simp only [noDangling, Bool.and_eq_true] at h1 ⊢
    refine ⟨?_, ih h1.2⟩
    have := h1.1
    simp only [List.all_eq_true] at this ⊢
    intro i hi
    have h3 := this i hi
    rw [List.append_eq, List.any_append, h3, Bool.true_or]

/-! ### Path-evaluation lemmas for `chat`

One lemma per control path of the handler, shared by the claim theorems. -/

/-- Free-text path: the provider returned no tool call. -/
lemma chat_freetext_eq (hist : List Msg) (q : Query) (t : Turn) (c : Option String)
    (hc1 : t.completion1 = Except.ok { content := c, tool_calls := [] }) :
    chat hist q t =
      (hist ++ [Msg.user q.prompt] ++ [Msg.assistantObj { content := c, tool_calls := [] }],
       ChatResult.reply { response := c, tool_used := none }) := by
  unfold chat
  rw [hc1]

/-- Carbon-calculator path: the Tool Host outcome (success or caught failure)
is appended as the Tool Result and echoed in the reply. -/
lemma chat_carbon_eq (hist : List Msg) (q : Query) (t : Turn) (c : Option String)
    (tc : ToolCall) (rest : List ToolCall) (args : Args)
    (hc1 : t.completion1 = Except.ok { content := c, tool_calls := tc :: rest })
    (hname : tc.name = "calculate_carbon_footprint")
    (hargs : tc.arguments = Except.ok args) :
    chat hist q t =
      (hist ++ [Msg.user q.prompt]
        ++ [Msg.assistantObj { content := c, tool_calls := tc :: rest }]
        ++ [Msg.tool tc.id (toolResultStr (t.toolHost args.instance_type ((args.hours).getD 0)))],
       ChatResult.reply
         { response := some (estimatedMsg (toolResultStr (t.toolHost args.instance_type ((args.hours).getD 0)))),
           tool_used := some "calculate_carbon_footprint",
           data := some { inst := args.instance_type,
                          footprint := toolResultStr (t.toolHost args.instance_type ((args.hours).getD 0)) } }) := by
  unfold chat
  rw [hc1]
  simp only [hname, hargs, if_true, if_false]

/-- Approval-gate path: a `deploy_instance` request on a GPU instance with
`approved = false`. -/
lemma chat_gated_eq (hist : List Msg) (q : Query) (t : Turn) (c : Option String)
    (tc : ToolCall) (rest : List ToolCall) (args : Args) (it : String)
    (hc1 : t.completion1 = Except.ok { content := c, tool_calls := tc :: rest })
    (hname : tc.name = "deploy_instance")
    (hargs : tc.arguments = Except.ok args)
    (hit : args.instance_type = some it)
    (hgpu : strContains it "gpu" = true)
    (happ : q.approved = false) :
    chat hist q t =
      (hist ++ [Msg.user q.prompt] ++ [Msg.assistantDict (approvalMsg it)],
       ChatResult.reply
         { response := some (approvalMsg it),
           requires_approval := some true,
           pending_action := some { inst := it, tool := "deploy_instance" } }) := by
  unfold chat
  rw [hc1]
  simp only [hname, hargs, hit, hgpu, happ, Bool.not_false, Bool.and_true,
    if_true, if_false, List.dropLast_concat]
  rfl

/-- Deploy-execution path: a `deploy_instance` request whose gate condition
is false (non-GPU instance, or approval already given). -/
lemma chat_deploy_exec_eq (hist : List Msg) (q : Query) (t : Turn) (c : Option String)
    (tc : ToolCall) (rest : List ToolCall) (args : Args) (it : String)
    (hc1 : t.completion1 = Except.ok { content := c, tool_calls := tc :: rest })
    (hname : tc.name = "deploy_instance")
    (hargs : tc.arguments = Except.ok args)
    (hit : args.instance_type = some it)
    (hcond : (strContains it "gpu" && !q.approved) = false) :
    chat hist q t =
      (hist ++ [Msg.user q.prompt]
        ++ [Msg.assistantObj { content := c, tool_calls := tc :: rest }]
        ++ [Msg.tool tc.id "DEPLOYMENT_INITIATED"],
       ChatResult.reply
         { response := some (deployInitMsg it),
           tool_used := some "deploy_instance",
           data := none }) := by
  unfold chat
  rw [hc1]
  simp only [hname, hargs, hit, hcond, if_true, if_false]
  rfl

/-- Manual-consultation path with a working RAG module: the lookup outcome is
appended as the Tool Result, the provider is re-consulted, and its message is
both appended and returned. -/
lemma chat_consult_eq (hist : List Msg) (q : Query) (t : Turn) (c : Option String)
    (tc : ToolCall) (rest : List ToolCall) (args : Args) (kn : Option String)
    (fm : ProviderMsg)
    (hc1 : t.completion1 = Except.ok { content := c, tool_calls := tc :: rest })
    (hname : tc.name = "consult_manual")
    (hargs : tc.arguments = Except.ok args)
    (hrag : t.ragImportOk = true)
    (hkn : t.knowledge args.topic = Except.ok kn)
    (hc2 : t.completion2 = Except.ok fm) :
    chat hist q t =
      (hist ++ [Msg.user q.prompt]
        ++ [Msg.assistantObj { content := c, tool_calls := tc :: rest }]
        ++ [Msg.tool tc.id (ragResultText kn)]
        ++ [Msg.assistantObj fm],
       ChatResult.reply { response := fm.content, tool_used := some "consult_manual" }) := by
  unfold chat
  rw [hc1]
  simp only [hname, hargs, hrag, hkn, hc2, if_true, if_false]
  rfl

/-- A string contains every suffix of itself as a substring. -/
lemma strContains_of_suffix (s e : String) (h : e.data <:+ s.data) :
    strContains s e = true := by
  unfold strContains
  exact decide_eq_true h.isInfix

/-! ### Claim theorems -/

/-- C1: for every turn in which the provider requests a GPU-designated
`deploy_instance` tool call and the approval flag is false, the handler
removes the just-appended pending Tool Invocation Request, appends a
substitute assistant free-text confirmation message in its place, returns a
reply with `requires_approval = true`, and the transcript contains no
unanswered Tool Invocation Request at rest after the turn. -/
theorem c1_gate_rolls_back_and_requires_approval
    (hist : List Msg) (q : Query) (t : Turn) (c : Option String)
    (tc : ToolCall) (rest : List ToolCall) (args : Args) (it : String)
    (hc1 : t.completion1 = Except.ok { content := c, tool_calls := tc :: rest })
    (hname : tc.name = "deploy_instance")
    (hargs : tc.arguments = Except.ok args)
    (hit : args.instance_type = some it)
    (hgpu : strContains it "gpu" = true)
    (happ : q.approved = false)
    (hnd : noDangling hist = true) :
    chat hist q t =
      (hist ++ [Msg.user q.prompt] ++ [Msg.assistantDict (approvalMsg it)],
       ChatResult.reply
         { response := some (approvalMsg it),
           requires_approval := some true,
           pending_action := some { inst := it, tool := "deploy_instance" } }) ∧
    noDangling (chat hist q t).1 = true := by
  have heq := chat_gated_eq hist q t c tc rest args it hc1 hname hargs hit hgpu happ
  refine ⟨heq, ?_⟩
  rw [heq]
  have hassoc : hist ++ [Msg.user q.prompt] ++ [Msg.assistantDict (approvalMsg it)] =
      hist ++ [Msg.user q.prompt, Msg.assistantDict (approvalMsg it)] := by
    rw [List.append_assoc]
    rfl
  rw [hassoc]
  apply noDangling_append hist _ hnd
  intro m hm
  rcases List.mem_cons.mp hm with h | hm2
  · rw [h]; rfl
  · rcases List.mem_cons.mp hm2 with h | hm3
    · rw [h]; rfl
    · exact absurd hm3 (List.not_mem_nil m)

/-- C1 witness: the gate fires on a concrete GPU deploy request against a
clean transcript. -/
theorem c1_gate_witness :
    strContains "gpu.large" "gpu" = true ∧
    noDangling histW = true ∧
    (chat histW { prompt := "Deploy GPU large", approved := false } turnC1 =
       (histW ++ [Msg.user "Deploy GPU large"] ++ [Msg.assistantDict (approvalMsg "gpu.large")],
        ChatResult.reply
          { response := some (approvalMsg "gpu.large"),
            requires_approval := some true,
            pending_action := some { inst := "gpu.large", tool := "deploy_instance" } }) ∧
     noDangling (chat histW { prompt := "Deploy GPU large", approved := false } turnC1).1 = true) :=
  ⟨by decide, by rfl,
   c1_gate_rolls_back_and_requires_approval histW
     { prompt := "Deploy GPU large", approved := false } turnC1 none
     { id := "call_1", name := "deploy_instance",
       arguments := Except.ok { instance_type := some "gpu.large", hours := some 4, topic := none } }
     [] { instance_type := some "gpu.large", hours := some 4, topic := none } "gpu.large"
     rfl rfl rfl rfl (by decide) rfl rfl⟩

/-- C2 counterexample: a `calculate_carbon_footprint` request with
`instance_type = "gpu.large"` and the approval flag false does NOT trigger
the gate: the tool is dispatched and the reply carries no
`requires_approval = true`. -/
theorem c2_counterexample_carbon_not_gated :
    resultRequiresApproval
      (chat histW { prompt := "Check carbon for GPU large", approved := false } turnC2).2 ≠
        some true ∧
    resultToolUsed
      (chat histW { prompt := "Check carbon for GPU large", approved := false } turnC2).2 =
        some "calculate_carbon_footprint" ∧
    strContains "gpu.large" "gpu" = true :=
  ⟨by decide, rfl, by decide⟩

/-- C2 amended: the high-impact approval gate applies only to the
`deploy_instance` tool; a `calculate_carbon_footprint` request on a
GPU-designated instance with approval flag false is dispatched to the Tool
Host as usual, its result is appended as the Tool Result, and the reply
carries no approval flag. -/
theorem c2_amended_carbon_never_gated
    (hist : List Msg) (q : Query) (t : Turn) (c : Option String)
    (tc : ToolCall) (rest : List ToolCall) (args : Args) (it : String)
    (hc1 : t.completion1 = Except.ok { content := c, tool_calls := tc :: rest })
    (hname : tc.name = "calculate_carbon_footprint")
    (hargs : tc.arguments = Except.ok args)
    (hit : args.instance_type = some it)
    (_hgpu : strContains it "gpu" = true)
    (_happ : q.approved = false) :
    resultRequiresApproval (chat hist q t).2 = none ∧
    resultToolUsed (chat hist q t).2 = some "calculate_carbon_footprint" ∧
    (chat hist q t).1.getLast? =
      some (Msg.tool tc.id (toolResultStr (t.toolHost (some it) ((args.hours).getD 0)))) := by
  have heq := chat_carbon_eq hist q t c tc rest args hc1 hname hargs
  rw [hit] at heq
  rw [heq]
  exact ⟨rfl, rfl, List.getLast?_concat _⟩

/-- C2 witness: the amended claim at the concrete gpu.large request. -/
theorem c2_amended_witness :
    strContains "gpu.large" "gpu" = true ∧
    (resultRequiresApproval
       (chat histW { prompt := "Check carbon for GPU large", approved := false } turnC2).2 = none ∧
     resultToolUsed
       (chat histW { prompt := "Check carbon for GPU large", approved := false } turnC2).2 =
         some "calculate_carbon_footprint" ∧
     (chat histW { prompt := "Check carbon for GPU large", approved := false } turnC2).1.getLast? =
       some (Msg.tool "call_1" (toolResultStr (turnC2.toolHost (some "gpu.large") 10)))) :=
  ⟨by decide,
   c2_amended_carbon_never_gated histW
     { prompt := "Check carbon for GPU large", approved := false } turnC2 none
     { id := "call_1", name := "calculate_carbon_footprint",
       arguments := Except.ok { instance_type := some "gpu.large", hours := some 10, topic := none } }
     [] { instance_type := some "gpu.large", hours := some 10, topic := none } "gpu.large"
     rfl rfl rfl rfl (by decide) rfl⟩

/-- C3 counterexample: two gated deploy requests that differ only in the
requested duration (7 vs 8 hours) produce identical transcripts and
identical replies, so the `pending_action` payload cannot echo the requested
duration and is not sufficient by itself to re-issue the identical request. -/
theorem c3_counterexample_pending_action_lacks_duration :
    chat histW { prompt := "Deploy GPU large", approved := false } turnC3a =
      chat histW { prompt := "Deploy GPU large", approved := false } turnC3b ∧
    resultRequiresApproval
      (chat histW { prompt := "Deploy GPU large", approved := false } turnC3a).2 = some true ∧
    turnC3a ≠ turnC3b := by
  refine ⟨rfl, rfl, ?_⟩
  intro h
  have h2 := congrArg Turn.completion1 h
  simp [turnC3a, turnC3b, mkTurn, mkToolCallMsg] at h2

/-- C3 amended: every gated reply echoes the requested tool name and the
requested instance type in `pending_action` (but no duration). -/
theorem c3_amended_pending_action_echo
    (hist : List Msg) (q : Query) (t : Turn) (c : Option String)
    (tc : ToolCall) (rest : List ToolCall) (args : Args) (it : String)
    (hc1 : t.completion1 = Except.ok { content := c, tool_calls := tc :: rest })
    (hname : tc.name = "deploy_instance")
    (hargs : tc.arguments = Except.ok args)
    (hit : args.instance_type = some it)
    (hgpu : strContains it "gpu" = true)
    (happ : q.approved = false) :
    resultRequiresApproval (chat hist q t).2 = some true ∧
    resultPendingAction (chat hist q t).2 = some { inst := it, tool := "deploy_instance" } := by
  have heq := chat_gated_eq hist q t c tc rest args it hc1 hname hargs hit hgpu happ
  rw [heq]
  exact ⟨rfl, rfl⟩

/-- C3 witness: the amended claim at a concrete gated request. -/
theorem c3_amended_witness :
    strContains "gpu.large" "gpu" = true ∧
    (resultRequiresApproval
       (chat histW { prompt := "Deploy GPU large", approved := false } turnC3a).2 = some true ∧
     resultPendingAction
       (chat histW { prompt := "Deploy GPU large", approved := false } turnC3a).2 =
         some { inst := "gpu.large", tool := "deploy_instance" }) :=
  ⟨by decide,
   c3_amended_pending_action_echo histW
     { prompt := "Deploy GPU large", approved := false } turnC3a none
     { id := "call_1", name := "deploy_instance",
       arguments := Except.ok { instance_type := some "gpu.large", hours := some 7, topic := none } }
     [] { instance_type := some "gpu.large", hours := some 7, topic := none } "gpu.large"
     rfl rfl rfl rfl (by decide) rfl⟩

/-- C4: when the Tool Host invocation raises during
`calculate_carbon_footprint`, the handler catches the failure, appends the
descriptive error string as the Tool Result content, and returns a normal
reply whose response text contains the error description. -/
theorem c4_tool_failure_caught
    (hist : List Msg) (q : Query) (t : Turn) (c : Option String)
    (tc : ToolCall) (rest : List ToolCall) (args : Args) (e : String)
    (hc1 : t.completion1 = Except.ok { content := c, tool_calls := tc :: rest })
    (hname : tc.name = "calculate_carbon_footprint")
    (hargs : tc.arguments = Except.ok args)
    (hfail : t.toolHost args.instance_type ((args.hours).getD 0) = Except.error e) :
    chat hist q t =
      (hist ++ [Msg.user q.prompt]
        ++ [Msg.assistantObj { content := c, tool_calls := tc :: rest }]
        ++ [Msg.tool tc.id (toolErrorStr e)],
       ChatResult.reply
         { response := some (estimatedMsg (toolErrorStr e)),
           tool_used := some "calculate_carbon_footprint",
           data := some { inst := args.instance_type, footprint := toolErrorStr e } }) ∧
    strContains (estimatedMsg (toolErrorStr e)) e = true := by
  have heq := chat_carbon_eq hist q t c tc rest args hc1 hname hargs
  rw [hfail] at heq
  simp only [toolResultStr] at heq
  refine ⟨heq, ?_⟩
  apply strContains_of_suffix
  unfold estimatedMsg toolErrorStr
  rw [String.data_append, String.data_append, ← List.append_assoc]
  exact List.suffix_append _ _

/-- C4 witness: a concrete Tool Host failure is folded into the transcript
and surfaced as a normal reply. -/
theorem c4_witness :
    turnC4.toolHost (some "t3.medium") 3 = Except.error "MCP transport closed" ∧
    (chat histW { prompt := "Check carbon", approved := false } turnC4 =
       (histW ++ [Msg.user "Check carbon"]
         ++ [Msg.assistantObj (mkToolCallMsg "calculate_carbon_footprint" (some "t3.medium") (some 3) none)]
         ++ [Msg.tool "call_1" (toolErrorStr "MCP transport closed")],
        ChatResult.reply
          { response := some (estimatedMsg (toolErrorStr "MCP transport closed")),
            tool_used := some "calculate_carbon_footprint",
            data := some { inst := some "t3.medium", footprint := toolErrorStr "MCP transport closed" } }) ∧
     strContains (estimatedMsg (toolErrorStr "MCP transport closed")) "MCP transport closed" = true) :=
  ⟨rfl,
   c4_tool_failure_caught histW { prompt := "Check carbon", approved := false } turnC4 none
     { id := "call_1", name := "calculate_carbon_footprint",
       arguments := Except.ok { instance_type := some "t3.medium", hours := some 3, topic := none } }
     [] { instance_type := some "t3.medium", hours := some 3, topic := none } "MCP transport closed"
     rfl rfl rfl rfl⟩

/-- C5: evaluation at the failing input. When the provider requests a tool
outside the declared catalog, no branch of the dispatch matches: instead of
rejecting the request with a descriptive error, the handler falls off the
end of the tool-call block and implicitly returns None, leaving the
unanswered Tool Invocation Request in the transcript. -/
theorem c5_unknown_tool_eval :
    (chat histW { prompt := "Weather tomorrow", approved := false } turnC5).2 =
      ChatResult.noneReturn ∧
    noDangling (chat histW { prompt := "Weather tomorrow", approved := false } turnC5).1 = false :=
  ⟨rfl, rfl⟩

/-- C6 counterexample: on a Knowledge Store miss the handler does NOT skip
the re-consultation and does NOT reply with the fixed not-found message: two
turns with the same query and the same miss but different summarization
outcomes yield different replies, neither of which is the fixed message. -/
theorem c6_counterexample_miss_reply_not_fixed :
    resultResponse (chat histW { prompt := "Tell me about quantization", approved := false } turnC6a).2 =
      some "Summary A." ∧
    resultResponse (chat histW { prompt := "Tell me about quantization", approved := false } turnC6b).2 =
      some "Summary B." ∧
    resultResponse (chat histW { prompt := "Tell me about quantization", approved := false } turnC6a).2 ≠
      some notFoundMsg ∧
    resultResponse (chat histW { prompt := "Tell me about quantization", approved := false } turnC6a).2 ≠
      resultResponse (chat histW { prompt := "Tell me about quantization", approved := false } turnC6b).2 :=
  ⟨rfl, rfl, by decide, by decide⟩

/-- C6 amended: on a Knowledge Store miss the fixed not-found string is
appended as the Tool Result content, but the Completion Provider is still
re-consulted, its message is appended, and the reply carries that message
(not the fixed string), so the reply text depends on the re-consultation. -/
theorem c6_amended_miss_appends_fixed_but_reconsults
    (hist : List Msg) (q : Query) (t : Turn) (c : Option String)
    (tc : ToolCall) (rest : List ToolCall) (args : Args) (fm : ProviderMsg)
    (hc1 : t.completion1 = Except.ok { content := c, tool_calls := tc :: rest })
    (hname : tc.name = "consult_manual")
    (hargs : tc.arguments = Except.ok args)
    (hrag : t.ragImportOk = true)
    (hkn : t.knowledge args.topic = Except.ok none)
    (hc2 : t.completion2 = Except.ok fm) :
    chat hist q t =
      (hist ++ [Msg.user q.prompt]
        ++ [Msg.assistantObj { content := c, tool_calls := tc :: rest }]
        ++ [Msg.tool tc.id notFoundMsg]
        ++ [Msg.assistantObj fm],
       ChatResult.reply { response := fm.content, tool_used := some "consult_manual" }) := by
  have heq := chat_consult_eq hist q t c tc rest args none fm hc1 hname hargs hrag hkn hc2
  simpa only [ragResultText] using heq

/-- C6 witness: the amended claim at a concrete miss. -/
theorem c6_amended_witness :
    turnC6a.ragImportOk = true ∧
    turnC6a.knowledge (some "quantization") = Except.ok none ∧
    chat histW { prompt := "Tell me about quantization", approved := false } turnC6a =
      (histW ++ [Msg.user "Tell me about quantization"]
        ++ [Msg.assistantObj (mkToolCallMsg "consult_manual" none none (some "quantization"))]
        ++ [Msg.tool "call_1" notFoundMsg]
        ++ [Msg.assistantObj { content := some "Summary A.", tool_calls := [] }],
       ChatResult.reply { response := some "Summary A.", tool_used := some "consult_manual" }) :=
  ⟨rfl, rfl,
   c6_amended_miss_appends_fixed_but_reconsults histW
     { prompt := "Tell me about quantization", approved := false } turnC6a none
     { id := "call_1", name := "consult_manual",
       arguments := Except.ok { instance_type := none, hours := none, topic := some "quantization" } }
     [] { instance_type := none, hours := none, topic := some "quantization" }
     { content := some "Summary A.", tool_calls := [] }
     rfl rfl rfl rfl rfl rfl⟩

/-- C7: the Tool Host carbon handler computes emissions as
rate-per-hour(instance_type) x hours with rate 0.05 for t3.medium, 1.2 for
gpu.large and 0.1 otherwise (here in exact hundredths: 5, 120, 10), formats
the result to two decimals followed by " kg", and in particular gpu.large
for 10 hours yields exactly "12.00 kg". -/
theorem c7_carbon_rate_table :
    (∀ (ity : Option String) (h : Option Int),
       handle_call_tool "calculate_carbon_footprint"
           (some { instance_type := ity, hours := h }) =
         ToolHostResult.ok
           [formatHundredthsKg (emissionsRateHundredths (ity.getD "unknown") * (h.getD 0))]) ∧
    emissionsRateHundredths "t3.medium" = 5 ∧
    emissionsRateHundredths "gpu.large" = 120 ∧
    (∀ s, s ≠ "t3.medium" → s ≠ "gpu.large" → emissionsRateHundredths s = 10) ∧
    handle_call_tool "calculate_carbon_footprint"
        (some { instance_type := some "gpu.large", hours := some 10 }) =
      ToolHostResult.ok ["12.00 kg"] := by
  refine ⟨fun ity h => rfl, rfl, rfl, fun s h1 h2 => ?_, rfl⟩
  unfold emissionsRateHundredths
  rw [if_neg h1, if_neg h2]

/-- C7 witness: the default rate applies to an instance type outside the
table. -/
theorem c7_witness : emissionsRateHundredths "m5.large" = 10 :=
  c7_carbon_rate_table.2.2.2.1 "m5.large" (by decide) (by decide)

/-- C8: evaluation at the failing input. A `deploy_instance` request whose
arguments lack `instance_type` makes the membership test raise while the
last transcript entry is the unanswered Tool Invocation Request; the rollback
guard in the outer except block then calls the dict method `.get` on the
provider message object, which has no such method, so the turn ends in an
uncaught AttributeError: the dangling request is NOT removed and no
HTTP 500 detail string is produced. -/
theorem c8_rollback_eval :
    (chat histW { prompt := "Deploy something", approved := false } turnC8).2 =
      ChatResult.uncaught "AttributeError" ∧
    noDangling (chat histW { prompt := "Deploy something", approved := false } turnC8).1 = false :=
  ⟨rfl, rfl⟩

/-- C9: when the Completion Provider returns free text with no tool request,
the reply has `tool_used` null and the provider text verbatim as `response`,
and the final transcript entry is exactly that assistant message. -/
theorem c9_freetext_verbatim
    (hist : List Msg) (q : Query) (t : Turn) (c : Option String)
    (hc1 : t.completion1 = Except.ok { content := c, tool_calls := [] }) :
    chat hist q t =
      (hist ++ [Msg.user q.prompt] ++ [Msg.assistantObj { content := c, tool_calls := [] }],
       ChatResult.reply { response := c, tool_used := none }) ∧
    resultToolUsed (chat hist q t).2 = none ∧
    resultResponse (chat hist q t).2 = c ∧
    (chat hist q t).1.getLast? = some (Msg.assistantObj { content := c, tool_calls := [] }) := by
  have heq := chat_freetext_eq hist q t c hc1
  rw [heq]
  exact ⟨rfl, rfl, rfl, List.getLast?_concat _⟩

/-- C9 witness: a concrete free-text turn. -/
theorem c9_witness :
    turnC9.completion1 =
      Except.ok { content := some "Hello! How can I help?", tool_calls := [] } ∧
    (chat histW { prompt := "Hi", approved := false } turnC9 =
       (histW ++ [Msg.user "Hi"]
         ++ [Msg.assistantObj { content := some "Hello! How can I help?", tool_calls := [] }],
        ChatResult.reply { response := some "Hello! How can I help?", tool_used := none }) ∧
     resultToolUsed (chat histW { prompt := "Hi", approved := false } turnC9).2 = none ∧
     resultResponse (chat histW { prompt := "Hi", approved := false } turnC9).2 =
       some "Hello! How can I help?" ∧
     (chat histW { prompt := "Hi", approved := false } turnC9).1.getLast? =
       some (Msg.assistantObj { content := some "Hello! How can I help?", tool_calls := [] })) :=
  ⟨rfl,
   c9_freetext_verbatim histW { prompt := "Hi", approved := false } turnC9
     (some "Hello! How can I help?") rfl⟩

/-- C10: for a `deploy_instance` request carrying an instance type, the gate
fires exactly when the instance type contains "gpu" and the approval flag is
false; otherwise the deploy executes immediately, appending the synthetic
DEPLOYMENT_INITIATED Tool Result, with a null `data` field — and in either
case the Tool Host is never contacted (the outcome is independent of the
Tool Host component of the turn). -/
theorem c10_deploy_gate_characterization
    (hist : List Msg) (q : Query) (t : Turn) (c : Option String)
    (tc : ToolCall) (rest : List ToolCall) (args : Args) (it : String)
    (hc1 : t.completion1 = Except.ok { content := c, tool_calls := tc :: rest })
    (hname : tc.name = "deploy_instance")
    (hargs : tc.arguments = Except.ok args)
    (hit : args.instance_type = some it) :
    ((strContains it "gpu" && !q.approved) = true →
       chat hist q t =
         (hist ++ [Msg.user q.prompt] ++ [Msg.assistantDict (approvalMsg it)],
          ChatResult.reply
            { response := some (approvalMsg it),
              requires_approval := some true,
              pending_action := some { inst := it, tool := "deploy_instance" } })) ∧
    ((strContains it "gpu" && !q.approved) = false →
       chat hist q t =
         (hist ++ [Msg.user q.prompt]
           ++ [Msg.assistantObj { content := c, tool_calls := tc :: rest }]
           ++ [Msg.tool tc.id "DEPLOYMENT_INITIATED"],
          ChatResult.reply
            { response := some (deployInitMsg it),
              tool_used := some "deploy_instance",
              data := none })) ∧
    (∀ th2 : Option String → Int → Except String String,
       chat hist q { t with toolHost := th2 } = chat hist q t) := by
  refine ⟨?_, ?_, ?_⟩
  · intro hcond
    obtain ⟨hgpu, hnotapp⟩ := Bool.and_eq_true_iff.mp hcond
    have happ : q.approved = false := by
      cases happ2 : q.approved
      · rfl
      · rw [happ2] at hnotapp
        exact absurd hnotapp (by decide)
    exact chat_gated_eq hist q t c tc rest args it hc1 hname hargs hit hgpu happ
  · intro hcond
    exact chat_deploy_exec_eq hist q t c tc rest args it hc1 hname hargs hit hcond
  · intro th2
    cases hcond : (strContains it "gpu" && !q.approved) with
    | false =>
      rw [chat_deploy_exec_eq hist q { t with toolHost := th2 } c tc rest args it hc1 hname hargs hit hcond,
          chat_deploy_exec_eq hist q t c tc rest args it hc1 hname hargs hit hcond]
    | true =>
      obtain ⟨hgpu, hnotapp⟩ := Bool.and_eq_true_iff.mp hcond
      have happ : q.approved = false := by
        cases happ2 : q.approved
        · rfl
        · rw [happ2] at hnotapp
          exact absurd hnotapp (by decide)
      rw [chat_gated_eq hist q { t with toolHost := th2 } c tc rest args it hc1 hname hargs hit hgpu happ,
          chat_gated_eq hist q t c tc rest args it hc1 hname hargs hit hgpu happ]

/-- C10 witness: a non-GPU deploy with approval flag false executes
immediately. -/
theorem c10_witness :
    (strContains "t3.medium" "gpu" && !false) = false ∧
    chat histW { prompt := "Deploy t3 medium", approved := false } turnC10 =
      (histW ++ [Msg.user "Deploy t3 medium"]
        ++ [Msg.assistantObj (mkToolCallMsg "deploy_instance" (some "t3.medium") (some 2) none)]
        ++ [Msg.tool "call_1" "DEPLOYMENT_INITIATED"],
       ChatResult.reply
         { response := some (deployInitMsg "t3.medium"),
           tool_used := some "deploy_instance",
           data := none }) :=
  ⟨by decide,
   (c10_deploy_gate_characterization histW
      { prompt := "Deploy t3 medium", approved := false } turnC10 none
      { id := "call_1", name := "deploy_instance",
        arguments := Except.ok { instance_type := some "t3.medium", hours := some 2, topic := none } }
      [] { instance_type := some "t3.medium", hours := some 2, topic := none } "t3.medium"
      rfl rfl rfl rfl).2.1 (by decide)⟩

end CloudVoice
